import Mathlib

/-
  Verification of the session-bootstrap front end (src/src/main.cpp) of the
  netcoredbg debugger, against its natural-language specification.

  The definitions below are a shallow embedding of main():
  - the command-line argument loop (lines 132-253), including the exact
    strtoul(_, _, 10) semantics used by --attach and --server=;
  - the interpreter switch constructing one protocol variant (lines 260-309);
  - the conditional construction of the IORedirectServer (lines 313-321);
  - the attach sub-sequence and the hand-off to CommandLoop (lines 323-337).

  Components of the repository that are not part of src (the IORedirectServer
  port handling, the protocol variants' launch-command handling, and the
  EmitOutputEvent serialization) are modelled from the spec and are marked
  as such in their doc comments.
-/

namespace netcoredbg

/-- Embeds DEFAULT_SERVER_PORT (main.cpp line 39). -/
def DEFAULT_SERVER_PORT : Nat := 4711

/-- Embeds the InterpreterType enum local to main() (main.cpp lines 117-122). -/
inductive InterpreterType where
  | InterpreterMI
  | InterpreterVSCode
  | InterpreterCLI
deriving DecidableEq

/-- The mutable locals of main() that the argument loop fills in
(main.cpp lines 113-130).  pidDebuggee is a DWORD (32-bit unsigned),
serverPort a uint16_t; both are kept as Nat below their modulus. -/
structure Config where
  pidDebuggee : Nat
  interpreterType : InterpreterType
  engineLogging : Bool
  logFilePath : String
  serverPort : Nat
  execFile : String
  execArgs : List String
deriving DecidableEq

/-- Initial values of the locals before the argument loop runs. -/
def initialConfig : Config :=
  { pidDebuggee := 0
    interpreterType := .InterpreterMI
    engineLogging := false
    logFilePath := ""
    serverPort := 0
    execFile := ""
    execArgs := [] }

/-- C isspace in the default locale (the characters strtoul skips). -/
def cIsSpace (c : Char) : Bool :=
  c = ' ' || c = '\t' || c = '\n' || c = '\x0b' || c = '\x0c' || c = '\r'

/-- ULONG_MAX on an LP64 platform (strtoul returns unsigned long). -/
def ULONG_MAX : Nat := 2 ^ 64 - 1

/-- Value of a list of decimal digit characters. -/
def digitsToNat (ds : List Char) : Nat :=
  ds.foldl (fun acc c => acc * 10 + (c.toNat - 48)) 0

/-- Embeds strtoul(s, &err, 10): skips leading whitespace and an optional
sign, consumes a maximal run of decimal digits, clamps at ULONG_MAX and
negates modulo 2^64 for a leading minus.  Returns the value together with
the remaining characters (the position err points at); when no digits were
consumed, no conversion happens and err is reset to the whole input. -/
def strtoul10 (s : List Char) : Nat × List Char :=
  let s1 := s.dropWhile cIsSpace
  let signNeg : Bool := match s1 with
    | '-' :: _ => true
    | _ => false
  let s2 := match s1 with
    | '-' :: r => r
    | '+' :: r => r
    | _ => s1
  let ds := s2.takeWhile Char.isDigit
  let rest := s2.dropWhile Char.isDigit
  if ds = [] then (0, s)
  else
    let v := digitsToNat ds
    let v1 :=
      if ULONG_MAX < v then ULONG_MAX
      else if signNeg then (2 ^ 64 - v) % 2 ^ 64
      else v
    (v1, rest)

/-- Embeds the pattern strstr(arg, sub) == arg used by main(): whether sub
occurs at the very start of arg. -/
def listIsPrefixOf : List Char → List Char → Bool
  | [], _ => true
  | _ :: _, [] => false
  | c :: cs, d :: ds => c = d && listIsPrefixOf cs ds

/-- String-level wrapper for listIsPrefixOf (sub occurs at offset 0 of s). -/
def strStartsWith (s sub : String) : Bool := listIsPrefixOf sub.data s.data

/-- Outcome of the argument loop: an early exit (EXIT_FAILURE with the
message printed to stderr, or EXIT_SUCCESS for help/buildinfo/version) or
the filled-in Config. -/
inductive ParseResult where
  | exitFailure (msg : String)
  | exitSuccess
  | ok (cfg : Config)
deriving DecidableEq

/-- Embeds the argument loop of main() (main.cpp lines 132-253), one
branch per else-if of the source, in source order.  --log and --log= only
touch the LOG_OUTPUT environment variable and leave the session
configuration unchanged. -/
def parseLoop (st : Config) : List String → ParseResult
  | [] => .ok st
  | arg :: rest =>
    if arg = "--attach" then
      match rest with
      | [] => .exitFailure "Error: Missing process id"
      | v :: rest2 =>
        let r := strtoul10 v.data
        if r.2 ≠ [] then .exitFailure "Error: Missing process id"
        else parseLoop { st with pidDebuggee := r.1 % 2 ^ 32 } rest2
    else if arg = "--interpreter=mi" then
      parseLoop { st with interpreterType := .InterpreterMI } rest
    else if arg = "--interpreter=vscode" then
      parseLoop { st with interpreterType := .InterpreterVSCode } rest
    else if arg = "--interpreter=cli" then
      parseLoop { st with interpreterType := .InterpreterCLI } rest
    else if arg = "--engineLogging" then
      parseLoop { st with engineLogging := true } rest
    else if strStartsWith arg "--engineLogging=" then
      parseLoop { st with engineLogging := true, logFilePath := String.mk (arg.data.drop 16) } rest
    else if arg = "--help" then .exitSuccess
    else if arg = "--buildinfo" then .exitSuccess
    else if arg = "--version" then .exitSuccess
    else if arg = "--log" then parseLoop st rest
    else if strStartsWith arg "--log=" then parseLoop st rest
    else if arg = "--server" then
      parseLoop { st with serverPort := DEFAULT_SERVER_PORT } rest
    else if strStartsWith arg "--server=" then
      let r := strtoul10 (arg.data.drop 9)
      if r.2 ≠ [] then .exitFailure "Error: Missing process id"
      else parseLoop { st with serverPort := r.1 % 2 ^ 16 } rest
    else if arg = "--" then
      match rest with
      | [] => .exitFailure "Error: Missing program argument"
      | f :: args => .ok { st with execFile := f, execArgs := args }
    else .exitFailure ("Error: Unknown option " ++ arg)

/-- The whole argument loop, started from the initial locals. -/
def parseArgs (args : List String) : ParseResult := parseLoop initialConfig args

/-- An argument that matches one of the option patterns of the loop
(including the positional separator).  Anything else falls into the
final else branch of the source. -/
def isKnownOption (a : String) : Bool :=
  a = "--attach" || a = "--interpreter=mi" || a = "--interpreter=vscode" ||
  a = "--interpreter=cli" || a = "--engineLogging" ||
  strStartsWith a "--engineLogging=" || a = "--help" || a = "--buildinfo" ||
  a = "--version" || a = "--log" || strStartsWith a "--log=" ||
  a = "--server" || strStartsWith a "--server=" || a = "--"

/-- Embeds the OutputStdOut / OutputStdErr constants passed to the
OutputEvent constructor. -/
inductive OutputChannel where
  | OutputStdOut
  | OutputStdErr
deriving DecidableEq

/-- Embeds OutputEvent(channel, text) as constructed at main.cpp
lines 318-319. -/
structure OutputEvent where
  channel : OutputChannel
  text : String
deriving DecidableEq

/-- Which launch-command seeding method the bootstrap invoked:
SetLaunchCommand (MIProtocol / CLIProtocol) or OverrideLaunchCommand
(VSCodeProtocol). -/
inductive LaunchSeedKind where
  | setLaunchCommand
  | overrideLaunchCommand
deriving DecidableEq

/-- What the interpreter switch (main.cpp lines 260-309) did to the
constructed protocol variant: which variant, whether EngineLogging was
invoked and with which path, and which launch command was seeded. -/
structure ProtocolSetup where
  interp : InterpreterType
  engineLoggingOn : Bool
  engineLogPath : String
  launch : Option (LaunchSeedKind × String × List String)
deriving DecidableEq

/-- Embeds the switch(interpreterType) of main() (lines 260-309).  MI and
CLI reject engine logging with an error printed to stderr and
EXIT_FAILURE; VSCode accepts it and calls EngineLogging(logFilePath).
Each case seeds the launch command only when execFile is non-empty. -/
def buildProtocol (cfg : Config) : Except String ProtocolSetup :=
  match cfg.interpreterType with
  | .InterpreterMI =>
    if cfg.engineLogging then
      .error "Error: Engine logging is only supported in VsCode interpreter mode."
    else
      .ok { interp := .InterpreterMI
            engineLoggingOn := false
            engineLogPath := ""
            launch := if cfg.execFile ≠ "" then
                some (.setLaunchCommand, cfg.execFile, cfg.execArgs) else none }
  | .InterpreterVSCode =>
    .ok { interp := .InterpreterVSCode
          engineLoggingOn := cfg.engineLogging
          engineLogPath := if cfg.engineLogging then cfg.logFilePath else ""
          launch := if cfg.execFile ≠ "" then
              some (.overrideLaunchCommand, cfg.execFile, cfg.execArgs) else none }
  | .InterpreterCLI =>
    if cfg.engineLogging then
      .error "Error: Engine logging is only supported in VsCode interpreter mode."
    else
      .ok { interp := .InterpreterCLI
            engineLoggingOn := false
            engineLogPath := ""
            launch := if cfg.execFile ≠ "" then
                some (.setLaunchCommand, cfg.execFile, cfg.execArgs) else none }

/-- Embeds the IORedirectServer as constructed at main.cpp lines 316-320:
the port argument and the two stream-capture callbacks handed to it. -/
structure IORedirectServer where
  port : Nat
  onStdOut : String → OutputEvent
  onStdErr : String → OutputEvent

/-- Embeds main.cpp lines 313-321: the server is constructed exactly for
the non-CLI interpreters, and both of its callbacks wrap the captured text
in an OutputStdOut-tagged OutputEvent. -/
def buildServer (cfg : Config) : Option IORedirectServer :=
  if cfg.interpreterType ≠ .InterpreterCLI then
    some { port := cfg.serverPort
           onStdOut := fun text => { channel := .OutputStdOut, text := text }
           onStdErr := fun text => { channel := .OutputStdOut, text := text } }
  else none

/-- The HRESULTs the three engine lifecycle calls would return, supplied
as an oracle for ManagedDebugger (whose implementation is outside main).
HRESULT is a 32-bit signed integer. -/
structure EngineResults where
  initResult : Int
  attachResult : Int
  configDoneResult : Int
deriving DecidableEq

/-- Embeds the FAILED(hr) macro: an HRESULT denotes failure iff it is
negative. -/
def FAILED (hr : Int) : Bool := hr < 0

/-- The engine lifecycle calls the bootstrap can issue (main.cpp
lines 326-328). -/
inductive EngineCall where
  | initEngine
  | attachTo (pid : Nat)
  | configDone
deriving DecidableEq

/-- Exit status of the process. -/
inductive ExitKind where
  | success
  | failure
deriving DecidableEq

/-- Observable trace of one run of main() past argument parsing: what was
constructed, which engine calls were made, whether CommandLoop ran, the
exit status and any stderr diagnostic. -/
structure SessionTrace where
  protocolConstructed : Option ProtocolSetup
  server : Option IORedirectServer
  engineCalls : List EngineCall
  ranCommandLoop : Bool
  exitCode : ExitKind
  errMsg : Option String

/-- Embeds main() from the interpreter switch to the end (main.cpp
lines 257-337): construct the variant (possibly rejecting the
configuration), construct the redirect server for non-CLI modes, and if
an attach pid was supplied call Initialize, Attach, ConfigurationDone in
that order.  The source discards the results of Initialize and Attach;
only a failing ConfigurationDone aborts before CommandLoop. -/
def runWithConfig (cfg : Config) (eng : EngineResults) : SessionTrace :=
  match buildProtocol cfg with
  | .error msg =>
    { protocolConstructed := none, server := none, engineCalls := [],
      ranCommandLoop := false, exitCode := .failure, errMsg := some msg }
  | .ok ps =>
    let srv := buildServer cfg
    if cfg.pidDebuggee ≠ 0 then
      if FAILED eng.configDoneResult then
        { protocolConstructed := some ps, server := srv,
          engineCalls := [.initEngine, .attachTo cfg.pidDebuggee, .configDone],
          ranCommandLoop := false, exitCode := .failure,
          errMsg := some ("Error: Failed to attach to " ++ toString cfg.pidDebuggee) }
      else
        { protocolConstructed := some ps, server := srv,
          engineCalls := [.initEngine, .attachTo cfg.pidDebuggee, .configDone],
          ranCommandLoop := true, exitCode := .success, errMsg := none }
    else
      { protocolConstructed := some ps, server := srv, engineCalls := [],
        ranCommandLoop := true, exitCode := .success, errMsg := none }

/-- Embeds the whole of main(): run the argument loop, then the session
bootstrap.  Early exits (parse errors, --help, --buildinfo, --version)
construct nothing and never reach the engine or the command loop. -/
def netcoredbgMain (args : List String) (eng : EngineResults) : SessionTrace :=
  match parseArgs args with
  | .exitFailure msg =>
    { protocolConstructed := none, server := none, engineCalls := [],
      ranCommandLoop := false, exitCode := .failure, errMsg := some msg }
  | .exitSuccess =>
    { protocolConstructed := none, server := none, engineCalls := [],
      ranCommandLoop := false, exitCode := .success, errMsg := none }
  | .ok cfg => runWithConfig cfg eng

/-- An engine whose three lifecycle calls all succeed (S_OK). -/
def engAllOK : EngineResults :=
  { initResult := 0, attachResult := 0, configDoneResult := 0 }

/-- Modelled from the spec: the IORedirectServer implementation is not
under src (only its construction site is); section 4.2 Start(port) says
a port of 0 / unspecified resolves to the documented default 4711. -/
def resolveServerPort (port : Nat) : Nat :=
  if port = 0 then DEFAULT_SERVER_PORT else port

/-- Modelled from the spec: the SetLaunchCommand / OverrideLaunchCommand
implementations of the protocol variants are not under src (only their
call sites are); section 4.1 ConfigureLaunch says that under
SetLaunchCommand the client's own launch command silently takes
precedence, while OverrideLaunchCommand unconditionally replaces whatever
the client requests.  Computes the launch command actually in effect from
the seeded one and the client-issued one. -/
def effectiveLaunch (seed : Option (LaunchSeedKind × String × List String))
    (client : Option (String × List String)) : Option (String × List String) :=
  match seed, client with
  | none, c => c
  | some (.setLaunchCommand, _, _), some c => some c
  | some (.setLaunchCommand, f, a), none => some (f, a)
  | some (.overrideLaunchCommand, f, a), _ => some (f, a)

/-- The launch-seed method the bootstrap uses for each interpreter. -/
def seedKindOf : InterpreterType → LaunchSeedKind
  | .InterpreterVSCode => .overrideLaunchCommand
  | _ => .setLaunchCommand

/-- Modelled from the spec: the EmitOutputEvent implementations of the
protocol variants are not under src (only the callbacks that invoke them
are); sections 4.1 and 5 require the variants to serialize concurrent
calls by mutual exclusion around the underlying write.  A thread emitting
one record acquires the lock, writes the record character by character,
and releases the lock; idle holds the record still to be emitted. -/
inductive EmitPhase where
  | idle (record : List Char)
  | writing (rem : List Char)
  | finished
deriving DecidableEq

/-- Shared state of the two emitting threads (false stands for the
engine's event-emission thread, true for the redirect server's forwarding
thread): the current lock owner, the characters the sink has received so
far, and each thread's phase. -/
structure EmitState where
  lockHolder : Option Bool
  out : List Char
  ph1 : EmitPhase
  ph2 : EmitPhase
deriving DecidableEq

/-- Phase of thread t. -/
def phaseOf (t : Bool) (s : EmitState) : EmitPhase := if t then s.ph2 else s.ph1

/-- Replace the phase of thread t. -/
def setPhase (t : Bool) (p : EmitPhase) (s : EmitState) : EmitState :=
  if t then { s with ph2 := p } else { s with ph1 := p }

/-- One interleaving step of thread t: acquire the free lock (a blocked
acquire is a stutter), write the next character of the record while
holding the lock, or release the lock once the record is written out. -/
def stepThread (t : Bool) (s : EmitState) : EmitState :=
  match phaseOf t s with
  | .idle r =>
    if s.lockHolder = none then setPhase t (.writing r) { s with lockHolder := some t }
    else s
  | .writing [] => setPhase t .finished { s with lockHolder := none }
  | .writing (c :: cs) => setPhase t (.writing cs) { s with out := s.out ++ [c] }
  | .finished => s

/-- Run a whole schedule (an arbitrary interleaving of the two threads). -/
def runEmits (sched : List Bool) (s : EmitState) : EmitState :=
  sched.foldl (fun s1 t => stepThread t s1) s

/-- Both threads about to emit their records, sink empty, lock free. -/
def initEmitState (r1 r2 : List Char) : EmitState :=
  { lockHolder := none, out := [], ph1 := .idle r1, ph2 := .idle r2 }

/-- Reachability invariant of the two-thread emission system: the sink
always holds the completed records, in completion order, followed by the
prefix written so far by the thread currently holding the lock. -/
inductive EmitInv (r1 r2 : List Char) : EmitState → Prop where
  | start : EmitInv r1 r2 (initEmitState r1 r2)
  | w1 (p rem : List Char) (h : r1 = p ++ rem) :
      EmitInv r1 r2 { lockHolder := some false, out := p, ph1 := .writing rem, ph2 := .idle r2 }
  | w2 (p rem : List Char) (h : r2 = p ++ rem) :
      EmitInv r1 r2 { lockHolder := some true, out := p, ph1 := .idle r1, ph2 := .writing rem }
  | d1 : EmitInv r1 r2 { lockHolder := none, out := r1, ph1 := .finished, ph2 := .idle r2 }
  | d2 : EmitInv r1 r2 { lockHolder := none, out := r2, ph1 := .idle r1, ph2 := .finished }
  | d1w2 (p rem : List Char) (h : r2 = p ++ rem) :
      EmitInv r1 r2 { lockHolder := some true, out := r1 ++ p, ph1 := .finished, ph2 := .writing rem }
  | d2w1 (p rem : List Char) (h : r1 = p ++ rem) :
      EmitInv r1 r2 { lockHolder := some false, out := r2 ++ p, ph1 := .writing rem, ph2 := .finished }
  | both12 : EmitInv r1 r2 { lockHolder := none, out := r1 ++ r2, ph1 := .finished, ph2 := .finished }
  | both21 : EmitInv r1 r2 { lockHolder := none, out := r2 ++ r1, ph1 := .finished, ph2 := .finished }

/-- Helper: the server field of the session trace is exactly what
buildServer yields, and nothing when the variant construction rejected
the configuration. -/
theorem runWithConfig_server (cfg : Config) (eng : EngineResults) :
    (runWithConfig cfg eng).server =
      match buildProtocol cfg with
      | .error _ => none
      | .ok _ => buildServer cfg := by
  cases hb : buildProtocol cfg with
  | error m => simp [runWithConfig, hb]
  | ok ps =>
    simp only [runWithConfig, hb]
    split <;> (try split) <;> rfl

/-- Helper: the protocol variant recorded in the session trace is the
successful result of buildProtocol. -/
theorem runWithConfig_protocol (cfg : Config) (eng : EngineResults) :
    (runWithConfig cfg eng).protocolConstructed = (buildProtocol cfg).toOption := by
  cases hb : buildProtocol cfg with
  | error m => simp [runWithConfig, hb, Except.toOption]
  | ok ps =>
    simp only [runWithConfig, hb]
    split <;> (try split) <;> rfl

/-- Helper: on every successful variant construction, the seeded launch
command is the configured executable and arguments (when an executable
was given) under the variant's own seeding method. -/
theorem buildProtocol_launch (cfg : Config) (ps : ProtocolSetup)
    (hok : buildProtocol cfg = .ok ps) :
    ps.launch = if cfg.execFile ≠ "" then
      some (seedKindOf cfg.interpreterType, cfg.execFile, cfg.execArgs) else none := by
  unfold buildProtocol at hok
  cases hty : cfg.interpreterType <;> rw [hty] at hok
  · cases hl : cfg.engineLogging <;> rw [hl] at hok
    · injection hok with h; rw [← h]; rfl
    · cases hok
  · injection hok with h; rw [← h]; rfl
  · cases hl : cfg.engineLogging <;> rw [hl] at hok
    · injection hok with h; rw [← h]; rfl
    · cases hok

/-- Helper: a list that listIsPrefixOf recognises as starting with p is
p followed by its own remainder. -/
theorem listIsPrefixOf_drop (p s : List Char) (h : listIsPrefixOf p s = true) :
    s = p ++ s.drop p.length := by
  induction p generalizing s with
  | nil => simp
  | cons c cs ih =>
    cases s with
    | nil => simp [listIsPrefixOf] at h
    | cons d ds =>
      simp only [listIsPrefixOf, Bool.and_eq_true, decide_eq_true_eq] at h
      obtain ⟨h1, h2⟩ := h
      subst h1
      simpa [List.drop] using ih ds h2

/-- Helper: EmitInv is preserved by every step of either thread. -/
theorem EmitInv.step (r1 r2 : List Char) (t : Bool) (s : EmitState)
    (h : EmitInv r1 r2 s) : EmitInv r1 r2 (stepThread t s) := by
  cases h with
  | start =>
    cases t
    · simpa [stepThread, initEmitState, phaseOf, setPhase] using EmitInv.w1 [] r1 rfl
    · simpa [stepThread, initEmitState, phaseOf, setPhase] using EmitInv.w2 [] r2 rfl
  | w1 p rem hp =>
    cases t
    · cases rem with
      | nil =>
        have hr : r1 = p := by simpa using hp
        simpa [stepThread, phaseOf, setPhase, hr] using @EmitInv.d1 r1 r2
      | cons c cs =>
        have hr : r1 = (p ++ [c]) ++ cs := by simpa using hp
        simpa [stepThread, phaseOf, setPhase] using EmitInv.w1 (p ++ [c]) cs hr
    · simpa [stepThread, phaseOf, setPhase] using EmitInv.w1 p rem hp
  | w2 p rem hp =>
    cases t
    · simpa [stepThread, phaseOf, setPhase] using EmitInv.w2 p rem hp
    · cases rem with
      | nil =>
        have hr : r2 = p := by simpa using hp
        simpa [stepThread, phaseOf, setPhase, hr] using @EmitInv.d2 r1 r2
      | cons c cs =>
        have hr : r2 = (p ++ [c]) ++ cs := by simpa using hp
        simpa [stepThread, phaseOf, setPhase] using EmitInv.w2 (p ++ [c]) cs hr
  | d1 =>
    cases t
    · simpa [stepThread, phaseOf, setPhase] using @EmitInv.d1 r1 r2
    · simpa [stepThread, phaseOf, setPhase] using EmitInv.d1w2 [] r2 rfl
  | d2 =>
    cases t
    · simpa [stepThread, phaseOf, setPhase] using EmitInv.d2w1 [] r1 rfl
    · simpa [stepThread, phaseOf, setPhase] using @EmitInv.d2 r1 r2
  | d1w2 p rem hp =>
    cases t
    · simpa [stepThread, phaseOf, setPhase] using EmitInv.d1w2 p rem hp
    · cases rem with
      | nil =>
        have hr : r2 = p := by simpa using hp
        simpa [stepThread, phaseOf, setPhase, hr] using @EmitInv.both12 r1 r2
      | cons c cs =>
        have hr : r2 = (p ++ [c]) ++ cs := by simpa using hp
        simpa [stepThread, phaseOf, setPhase, List.append_assoc] using
          EmitInv.d1w2 (p ++ [c]) cs hr
  | d2w1 p rem hp =>
    cases t
    · cases rem with
      | nil =>
        have hr : r1 = p := by simpa using hp
        simpa [stepThread, phaseOf, setPhase, hr] using @EmitInv.both21 r1 r2
      | cons c cs =>
        have hr : r1 = (p ++ [c]) ++ cs := by simpa using hp
        simpa [stepThread, phaseOf, setPhase, List.append_assoc] using
          EmitInv.d2w1 (p ++ [c]) cs hr
    · simpa [stepThread, phaseOf, setPhase] using EmitInv.d2w1 p rem hp
  | both12 =>
    cases t <;> simpa [stepThread, phaseOf, setPhase] using @EmitInv.both12 r1 r2
  | both21 =>
    cases t <;> simpa [stepThread, phaseOf, setPhase] using @EmitInv.both21 r1 r2

/-- Helper: EmitInv holds after running any schedule from an invariant
state. -/
theorem EmitInv.run (r1 r2 : List Char) (sched : List Bool) (s : EmitState)
    (h : EmitInv r1 r2 s) : EmitInv r1 r2 (runEmits sched s) := by
  induction sched generalizing s with
  | nil => exact h
  | cons t ts ih => exact ih (stepThread t s) (EmitInv.step r1 r2 t s h)

/-- Claim C1, counterexample to the claim as stated: the bootstrap does
not exit with failure for every non-success result of the three attach
calls.  With attach pid 1 and an engine whose Initialize returns the
failing HRESULT -1 while Attach and ConfigurationDone succeed, the three
calls are made in order but the process still runs the command loop and
exits successfully: main.cpp lines 326-327 discard the results of
Initialize and Attach, and only ConfigurationDone's result is tested. -/
theorem attach_any_failure_aborts_cex :
    FAILED ({ initResult := -1, attachResult := 0, configDoneResult := 0 } : EngineResults).initResult = true ∧
    (runWithConfig { initialConfig with pidDebuggee := 1 }
      { initResult := -1, attachResult := 0, configDoneResult := 0 }).engineCalls =
      [EngineCall.initEngine, EngineCall.attachTo 1, EngineCall.configDone] ∧
    (runWithConfig { initialConfig with pidDebuggee := 1 }
      { initResult := -1, attachResult := 0, configDoneResult := 0 }).ranCommandLoop = true ∧
    (runWithConfig { initialConfig with pidDebuggee := 1 }
      { initResult := -1, attachResult := 0, configDoneResult := 0 }).exitCode = ExitKind.success :=
  ⟨rfl, rfl, rfl, rfl⟩

/-- Claim C1 (amended): if an attach pid was supplied the bootstrap calls
Initialize, then Attach(pid), then ConfigurationDone in that exact order;
the results of Initialize and Attach are discarded, and only a
non-success ConfigurationDone result makes the process print a
diagnostic naming the target pid and exit with failure status without
calling the command loop, while a successful ConfigurationDone reaches
the command loop. -/
theorem attach_sequence_configDone_gate (cfg : Config) (eng : EngineResults) (ps : ProtocolSetup)
    (hpid : cfg.pidDebuggee ≠ 0) (hok : buildProtocol cfg = Except.ok ps) :
    (runWithConfig cfg eng).engineCalls =
      [EngineCall.initEngine, EngineCall.attachTo cfg.pidDebuggee, EngineCall.configDone] ∧
    (FAILED eng.configDoneResult = true →
      (runWithConfig cfg eng).exitCode = ExitKind.failure ∧
      (runWithConfig cfg eng).ranCommandLoop = false ∧
      (runWithConfig cfg eng).errMsg =
        some ("Error: Failed to attach to " ++ toString cfg.pidDebuggee)) ∧
    (FAILED eng.configDoneResult = false →
      (runWithConfig cfg eng).ranCommandLoop = true ∧
      (runWithConfig cfg eng).exitCode = ExitKind.success) := by
  cases hf : FAILED eng.configDoneResult <;>
    simp [runWithConfig, hok, hpid, hf]

/-- Witness for C1 (amended) at pid 5 with a failing ConfigurationDone. -/
theorem attach_sequence_configDone_gate_witness :
    ({ initialConfig with pidDebuggee := 5 } : Config).pidDebuggee ≠ 0 ∧
    ((runWithConfig { initialConfig with pidDebuggee := 5 }
        { initResult := 0, attachResult := 0, configDoneResult := -1 }).engineCalls =
      [EngineCall.initEngine, EngineCall.attachTo 5, EngineCall.configDone] ∧
    (FAILED (-1 : Int) = true →
      (runWithConfig { initialConfig with pidDebuggee := 5 }
        { initResult := 0, attachResult := 0, configDoneResult := -1 }).exitCode = ExitKind.failure ∧
      (runWithConfig { initialConfig with pidDebuggee := 5 }
        { initResult := 0, attachResult := 0, configDoneResult := -1 }).ranCommandLoop = false ∧
      (runWithConfig { initialConfig with pidDebuggee := 5 }
        { initResult := 0, attachResult := 0, configDoneResult := -1 }).errMsg =
        some ("Error: Failed to attach to " ++
          toString ({ initialConfig with pidDebuggee := 5 } : Config).pidDebuggee)) ∧
    (FAILED (-1 : Int) = false →
      (runWithConfig { initialConfig with pidDebuggee := 5 }
        { initResult := 0, attachResult := 0, configDoneResult := -1 }).ranCommandLoop = true ∧
      (runWithConfig { initialConfig with pidDebuggee := 5 }
        { initResult := 0, attachResult := 0, configDoneResult := -1 }).exitCode = ExitKind.success)) :=
  ⟨by decide,
   attach_sequence_configDone_gate { initialConfig with pidDebuggee := 5 }
     { initResult := 0, attachResult := 0, configDoneResult := -1 }
     { interp := InterpreterType.InterpreterMI, engineLoggingOn := false,
       engineLogPath := "", launch := none }
     (by decide) rfl⟩

/-- Claim C2: for every interpreter mode other than VSCode, a
configuration that requests engine logging makes the process print an
error and exit with failure status with no protocol variant, no server
and no engine calls; in VSCode mode the same configuration is accepted
and engine logging is enabled on the variant with the configured path. -/
theorem engineLogging_requires_vscode (cfg : Config) (eng : EngineResults)
    (h : cfg.engineLogging = true) :
    (cfg.interpreterType ≠ InterpreterType.InterpreterVSCode →
      runWithConfig cfg eng =
        { protocolConstructed := none, server := none, engineCalls := [],
          ranCommandLoop := false, exitCode := ExitKind.failure,
          errMsg := some "Error: Engine logging is only supported in VsCode interpreter mode." }) ∧
    (cfg.interpreterType = InterpreterType.InterpreterVSCode →
      ∃ ps, buildProtocol cfg = Except.ok ps ∧
        (runWithConfig cfg eng).protocolConstructed = some ps ∧
        ps.engineLoggingOn = true ∧ ps.engineLogPath = cfg.logFilePath) := by
  constructor
  · intro hne
    cases hty : cfg.interpreterType with
    | InterpreterMI => simp [runWithConfig, buildProtocol, hty, h]
    | InterpreterVSCode => exact absurd hty hne
    | InterpreterCLI => simp [runWithConfig, buildProtocol, hty, h]
  · intro hv
    have hok : buildProtocol cfg = Except.ok
        { interp := InterpreterType.InterpreterVSCode, engineLoggingOn := true,
          engineLogPath := cfg.logFilePath,
          launch := if cfg.execFile ≠ "" then
            some (LaunchSeedKind.overrideLaunchCommand, cfg.execFile, cfg.execArgs) else none } := by
      simp [buildProtocol, hv, h]
    refine ⟨_, hok, ?_, rfl, rfl⟩
    rw [runWithConfig_protocol, hok]
    rfl

/-- Witness for C2 at the default (MI) mode with engine logging on. -/
theorem engineLogging_requires_vscode_witness :
    ({ initialConfig with engineLogging := true } : Config).engineLogging = true ∧
    (({ initialConfig with engineLogging := true } : Config).interpreterType ≠
        InterpreterType.InterpreterVSCode →
      runWithConfig { initialConfig with engineLogging := true } engAllOK =
        { protocolConstructed := none, server := none, engineCalls := [],
          ranCommandLoop := false, exitCode := ExitKind.failure,
          errMsg := some "Error: Engine logging is only supported in VsCode interpreter mode." }) :=
  ⟨rfl, (engineLogging_requires_vscode { initialConfig with engineLogging := true } engAllOK rfl).1⟩

/-- Claim C3, counterexample to the claim as stated: an execution whose
interpreter mode is MI (the default) need not construct a redirect
server — with arguments [--engineLogging] the process exits with a
configuration error at main.cpp line 269, before the server construction
site at line 316, so no server is ever constructed although the mode is
MI. -/
theorem redirect_server_always_cex :
    parseArgs ["--engineLogging"] = ParseResult.ok { initialConfig with engineLogging := true } ∧
    ({ initialConfig with engineLogging := true } : Config).interpreterType =
      InterpreterType.InterpreterMI ∧
    (netcoredbgMain ["--engineLogging"] engAllOK).server = none ∧
    (netcoredbgMain ["--engineLogging"] engAllOK).exitCode = ExitKind.failure :=
  ⟨rfl, rfl, rfl, rfl⟩

/-- Claim C3 (amended): in CLI mode no redirect server is ever
constructed, regardless of the serverPort configuration; in MI and
VSCode mode a redirect server (carrying the configured port) is
constructed whenever the bootstrap passes configuration validation,
while a configuration-error exit constructs none. -/
theorem redirect_server_by_mode (cfg : Config) (eng : EngineResults) :
    (cfg.interpreterType = InterpreterType.InterpreterCLI →
      (runWithConfig cfg eng).server = none) ∧
    (cfg.interpreterType ≠ InterpreterType.InterpreterCLI →
      ∀ ps, buildProtocol cfg = Except.ok ps →
        (runWithConfig cfg eng).server =
          some { port := cfg.serverPort,
                 onStdOut := fun text => { channel := OutputChannel.OutputStdOut, text := text },
                 onStdErr := fun text => { channel := OutputChannel.OutputStdOut, text := text } }) := by
  constructor
  · intro h
    rw [runWithConfig_server]
    cases buildProtocol cfg with
    | error m => rfl
    | ok ps => simp [buildServer, h]
  · intro h ps hok
    rw [runWithConfig_server, hok]
    simp [buildServer, h]

/-- Witness for C3 (amended): a CLI configuration constructs no server
and the default MI configuration constructs one. -/
theorem redirect_server_by_mode_witness :
    (runWithConfig { initialConfig with interpreterType := InterpreterType.InterpreterCLI }
      engAllOK).server = none ∧
    (runWithConfig initialConfig engAllOK).server =
      some { port := initialConfig.serverPort,
             onStdOut := fun text => { channel := OutputChannel.OutputStdOut, text := text },
             onStdErr := fun text => { channel := OutputChannel.OutputStdOut, text := text } } :=
  ⟨(redirect_server_by_mode { initialConfig with interpreterType := InterpreterType.InterpreterCLI }
      engAllOK).1 rfl,
   (redirect_server_by_mode initialConfig engAllOK).2 (by decide)
     { interp := InterpreterType.InterpreterMI, engineLoggingOn := false,
       engineLogPath := "", launch := none } rfl⟩

/-- Claim C4: for any interleaving of the two emitting threads under the
mutual-exclusion discipline of EmitOutputEvent after which both distinct
records have been emitted, the sink holds exactly one record followed by
the other — both texts appear, each intact, never interleaved
mid-record. -/
theorem emit_concurrent_records_intact (r1 r2 : List Char) (sched : List Bool)
    (hne : r1 ≠ r2)
    (h1 : (runEmits sched (initEmitState r1 r2)).ph1 = EmitPhase.finished)
    (h2 : (runEmits sched (initEmitState r1 r2)).ph2 = EmitPhase.finished) :
    (runEmits sched (initEmitState r1 r2)).out = r1 ++ r2 ∨
    (runEmits sched (initEmitState r1 r2)).out = r2 ++ r1 := by
  have hinv := EmitInv.run r1 r2 sched (initEmitState r1 r2) EmitInv.start
  revert h1 h2
  generalize runEmits sched (initEmitState r1 r2) = sf at hinv ⊢
  intro h1 h2
  cases hinv <;> simp_all [initEmitState]

/-- Witness for C4 on the records ab and cd under a sequential
schedule. -/
theorem emit_concurrent_records_intact_witness :
    (['a', 'b'] : List Char) ≠ ['c', 'd'] ∧
    ((runEmits [false, false, false, false, true, true, true, true]
        (initEmitState ['a', 'b'] ['c', 'd'])).out = ['a', 'b'] ++ ['c', 'd'] ∨
     (runEmits [false, false, false, false, true, true, true, true]
        (initEmitState ['a', 'b'] ['c', 'd'])).out = ['c', 'd'] ++ ['a', 'b']) :=
  ⟨by decide,
   emit_concurrent_records_intact ['a', 'b'] ['c', 'd']
     [false, false, false, false, true, true, true, true]
     (by decide) (by decide) (by decide)⟩

/-- Claim C5: the bare --server flag sets the configured port to
DEFAULT_SERVER_PORT, which is 4711; a port left at 0 (no --server flag,
as in the initial configuration produced by an empty argument list)
resolves to the documented default 4711 under the spec-modelled
resolution of the redirect server, and the server constructed for a bare
--server run carries port 4711. -/
theorem server_port_default_4711 :
    (∀ st rest, parseLoop st ("--server" :: rest) =
      parseLoop { st with serverPort := DEFAULT_SERVER_PORT } rest) ∧
    DEFAULT_SERVER_PORT = 4711 ∧
    resolveServerPort 0 = 4711 ∧
    parseArgs [] = ParseResult.ok initialConfig ∧
    initialConfig.serverPort = 0 ∧
    ((netcoredbgMain ["--server"] engAllOK).server.map IORedirectServer.port) = some 4711 :=
  ⟨fun st rest => by rw [parseLoop.eq_def]; simp +decide, rfl, rfl, rfl, rfl, rfl⟩

/-- Claim C6, counterexample to the claim as stated: --attach with an
empty-string value (a value that is not a numeric process id) is not
rejected — strtoul performs no conversion, leaves err at the terminator,
and yields 0, so the parse succeeds with pid 0, the MI variant is
constructed, the command loop runs and the process exits successfully
with no error message. -/
theorem bad_value_rejected_cex :
    parseArgs ["--attach", ""] = ParseResult.ok initialConfig ∧
    (netcoredbgMain ["--attach", ""] engAllOK).exitCode = ExitKind.success ∧
    (netcoredbgMain ["--attach", ""] engAllOK).ranCommandLoop = true ∧
    (netcoredbgMain ["--attach", ""] engAllOK).errMsg = none ∧
    (netcoredbgMain ["--attach", ""] engAllOK).protocolConstructed =
      some { interp := InterpreterType.InterpreterMI, engineLoggingOn := false,
             engineLogPath := "", launch := none } :=
  ⟨rfl, rfl, rfl, rfl, rfl⟩

/-- Claim C6 (amended): when the argument loop reaches an unknown flag,
an --attach with no following value, an --attach whose value strtoul
does not fully consume, or a --server= value strtoul does not fully
consume, the process reports an error and exits with failure status, and
every parse-stage failure exit constructs no protocol variant, no server
and makes no engine call; a value fully consumed by strtoul is accepted
even when it contains no digits (the empty string yields pid 0). -/
theorem config_errors_fail_before_construction :
    (∀ st a rest, isKnownOption a = false →
      parseLoop st (a :: rest) = ParseResult.exitFailure ("Error: Unknown option " ++ a)) ∧
    (∀ st, parseLoop st ["--attach"] = ParseResult.exitFailure "Error: Missing process id") ∧
    (∀ st v rest, (strtoul10 v.data).2 ≠ [] →
      parseLoop st ("--attach" :: v :: rest) = ParseResult.exitFailure "Error: Missing process id") ∧
    (∀ st a rest, strStartsWith a "--server=" = true → (strtoul10 (a.data.drop 9)).2 ≠ [] →
      parseLoop st (a :: rest) = ParseResult.exitFailure "Error: Missing process id") ∧
    (∀ args msg eng, parseArgs args = ParseResult.exitFailure msg →
      netcoredbgMain args eng =
        { protocolConstructed := none, server := none, engineCalls := [],
          ranCommandLoop := false, exitCode := ExitKind.failure, errMsg := some msg }) := by
  refine ⟨?_, ?_, ?_, ?_, ?_⟩
  · intro st a rest h
    simp only [isKnownOption, Bool.or_eq_false_iff, decide_eq_false_iff_not] at h
    rw [parseLoop.eq_def]
    simp [h]
  · intro st
    rw [parseLoop.eq_def]
    simp +decide
  · intro st v rest h
    rw [parseLoop.eq_def]
    simp +decide [h]
  · intro st a rest hpre hbad
    have hpre2 : listIsPrefixOf "--server=".data a.data = true := hpre
    have ht : a.data = ['-', '-', 's', 'e', 'r', 'v', 'e', 'r', '='] ++ a.data.drop 9 :=
      listIsPrefixOf_drop "--server=".data a.data hpre2
    have htake : a.data.take 9 = ['-', '-', 's', 'e', 'r', 'v', 'e', 'r', '='] := by
      rw [ht]
      rfl
    have hne : ∀ lit : String,
        lit.data.take 9 ≠ ['-', '-', 's', 'e', 'r', 'v', 'e', 'r', '='] → ¬(a = lit) := by
      intro lit hl he
      rw [he] at htake
      exact hl htake
    have hel : strStartsWith a "--engineLogging=" = false := by
      simp only [strStartsWith]
      rw [ht]
      rfl
    have hlog : strStartsWith a "--log=" = false := by
      simp only [strStartsWith]
      rw [ht]
      rfl
    rw [parseLoop.eq_def]
    simp [hne "--attach" (by decide), hne "--interpreter=mi" (by decide),
          hne "--interpreter=vscode" (by decide), hne "--interpreter=cli" (by decide),
          hne "--engineLogging" (by decide), hel, hne "--help" (by decide),
          hne "--buildinfo" (by decide), hne "--version" (by decide),
          hne "--log" (by decide), hlog, hne "--server" (by decide), hpre, hbad]
  · intro args msg eng h
    simp [netcoredbgMain, h]

/-- Witness for C6 (amended) on an unknown flag and a non-numeric attach
value. -/
theorem config_errors_fail_before_construction_witness :
    isKnownOption "--frobnicate" = false ∧
    parseLoop initialConfig ["--frobnicate"] =
      ParseResult.exitFailure ("Error: Unknown option " ++ "--frobnicate") ∧
    (strtoul10 "12x".data).2 ≠ [] ∧
    parseLoop initialConfig ["--attach", "12x"] =
      ParseResult.exitFailure "Error: Missing process id" ∧
    strStartsWith "--server=12x" "--server=" = true ∧
    (strtoul10 (("--server=12x" : String).data.drop 9)).2 ≠ [] ∧
    parseLoop initialConfig ["--server=12x"] =
      ParseResult.exitFailure "Error: Missing process id" ∧
    parseArgs ["--frobnicate"] = ParseResult.exitFailure ("Error: Unknown option --frobnicate") ∧
    netcoredbgMain ["--frobnicate"] engAllOK =
      { protocolConstructed := none, server := none, engineCalls := [],
        ranCommandLoop := false, exitCode := ExitKind.failure,
        errMsg := some ("Error: Unknown option --frobnicate") } :=
  ⟨by decide,
   config_errors_fail_before_construction.1 initialConfig "--frobnicate" [] (by decide),
   by decide,
   config_errors_fail_before_construction.2.2.1 initialConfig "12x" [] (by decide),
   by decide,
   by decide,
   config_errors_fail_before_construction.2.2.2.1 initialConfig "--server=12x" []
     (by decide) (by decide),
   rfl,
   config_errors_fail_before_construction.2.2.2.2 ["--frobnicate"]
     ("Error: Unknown option --frobnicate") engAllOK rfl⟩

/-- Claim C7: on every successful variant construction, a supplied
launch command is seeded at construction with SetLaunchCommand on the MI
and CLI variants and with OverrideLaunchCommand on the VSCode variant,
and nothing is seeded when no executable was supplied; under the
spec-modelled launch semantics a SetLaunchCommand seed yields to a
client-issued launch command while an OverrideLaunchCommand seed
unconditionally replaces it. -/
theorem launch_seed_per_variant (cfg : Config) (ps : ProtocolSetup)
    (hok : buildProtocol cfg = Except.ok ps) :
    (cfg.execFile = "" → ps.launch = none) ∧
    (cfg.execFile ≠ "" →
      ps.launch = some (seedKindOf cfg.interpreterType, cfg.execFile, cfg.execArgs)) ∧
    seedKindOf InterpreterType.InterpreterMI = LaunchSeedKind.setLaunchCommand ∧
    seedKindOf InterpreterType.InterpreterCLI = LaunchSeedKind.setLaunchCommand ∧
    seedKindOf InterpreterType.InterpreterVSCode = LaunchSeedKind.overrideLaunchCommand ∧
    (∀ f a c, effectiveLaunch (some (LaunchSeedKind.setLaunchCommand, f, a)) (some c) = some c) ∧
    (∀ f a, effectiveLaunch (some (LaunchSeedKind.setLaunchCommand, f, a)) none = some (f, a)) ∧
    (∀ f a c, effectiveLaunch (some (LaunchSeedKind.overrideLaunchCommand, f, a)) c = some (f, a)) := by
  have hl := buildProtocol_launch cfg ps hok
  refine ⟨?_, ?_, rfl, rfl, rfl, fun f a c => rfl, fun f a => rfl, fun f a c => rfl⟩
  · intro h
    rw [hl]
    simp [h]
  · intro h
    rw [hl, if_pos h]

/-- Witness for C7 on the MI variant with executable app.dll. -/
theorem launch_seed_per_variant_witness :
    buildProtocol { initialConfig with execFile := "app.dll", execArgs := ["a1"] } =
      Except.ok { interp := InterpreterType.InterpreterMI, engineLoggingOn := false,
                  engineLogPath := "",
                  launch := some (LaunchSeedKind.setLaunchCommand, "app.dll", ["a1"]) } ∧
    ({ initialConfig with execFile := "app.dll", execArgs := ["a1"] } : Config).execFile ≠ "" ∧
    ({ interp := InterpreterType.InterpreterMI, engineLoggingOn := false,
       engineLogPath := "",
       launch := some (LaunchSeedKind.setLaunchCommand, "app.dll", ["a1"]) } : ProtocolSetup).launch =
      some (seedKindOf ({ initialConfig with execFile := "app.dll", execArgs := ["a1"] } : Config).interpreterType,
            ({ initialConfig with execFile := "app.dll", execArgs := ["a1"] } : Config).execFile,
            ({ initialConfig with execFile := "app.dll", execArgs := ["a1"] } : Config).execArgs) :=
  ⟨rfl, by decide,
   (launch_seed_per_variant { initialConfig with execFile := "app.dll", execArgs := ["a1"] }
     { interp := InterpreterType.InterpreterMI, engineLoggingOn := false,
       engineLogPath := "",
       launch := some (LaunchSeedKind.setLaunchCommand, "app.dll", ["a1"]) } rfl).2.1 (by decide)⟩

/-- Claim C8: whenever a redirect server is constructed (every non-CLI
mode), both of its capture callbacks — the one for the debuggee's
standard output and the one for its standard error — wrap the captured
text in an OutputEvent tagged OutputStdOut, collapsing the stderr
distinction into StdOut. -/
theorem capture_callbacks_collapse_to_stdout (cfg : Config) (eng : EngineResults)
    (srv : IORedirectServer) (h : (runWithConfig cfg eng).server = some srv) (text : String) :
    srv.onStdOut text = { channel := OutputChannel.OutputStdOut, text := text } ∧
    srv.onStdErr text = { channel := OutputChannel.OutputStdOut, text := text } := by
  rw [runWithConfig_server] at h
  cases hb : buildProtocol cfg with
  | error m => rw [hb] at h; cases h
  | ok ps =>
    rw [hb] at h
    unfold buildServer at h
    by_cases hc : cfg.interpreterType ≠ InterpreterType.InterpreterCLI
    · rw [if_pos hc] at h
      cases h
      exact ⟨rfl, rfl⟩
    · rw [if_neg hc] at h
      cases h

/-- Witness for C8 on the server of the default MI configuration. -/
theorem capture_callbacks_collapse_to_stdout_witness :
    ({ port := 0,
       onStdOut := fun text => { channel := OutputChannel.OutputStdOut, text := text },
       onStdErr := fun text => { channel := OutputChannel.OutputStdOut, text := text } } :
        IORedirectServer).onStdOut "hello" =
      { channel := OutputChannel.OutputStdOut, text := "hello" } ∧
    ({ port := 0,
       onStdOut := fun text => { channel := OutputChannel.OutputStdOut, text := text },
       onStdErr := fun text => { channel := OutputChannel.OutputStdOut, text := text } } :
        IORedirectServer).onStdErr "hello" =
      { channel := OutputChannel.OutputStdOut, text := "hello" } :=
  capture_callbacks_collapse_to_stdout initialConfig engAllOK _ rfl "hello"

/-- Claim C9: --attach 0 is accepted by the argument parser (strtoul
consumes the whole value), yet the attach sub-sequence is skipped
entirely — no Initialize, Attach or ConfigurationDone call is made — and
the whole run is identical to one whose argument list omits the two
arguments: the session proceeds straight to the command loop. -/
theorem attach_zero_skips_attach (rest : List String) (eng : EngineResults) :
    netcoredbgMain ("--attach" :: "0" :: rest) eng = netcoredbgMain rest eng ∧
    parseArgs ["--attach", "0"] = ParseResult.ok initialConfig ∧
    (netcoredbgMain ["--attach", "0"] eng).engineCalls = [] ∧
    (netcoredbgMain ["--attach", "0"] eng).ranCommandLoop = true ∧
    (netcoredbgMain ["--attach", "0"] eng).exitCode = ExitKind.success :=
  ⟨rfl, rfl, rfl, rfl, rfl⟩

/-- Claim C10: every argument after the positional separator is taken
verbatim, never as an option — the first becomes the launch executable
and the remaining ones, in order, its argument list, whatever dashes
they start with — and a trailing separator with nothing after it
produces the missing-program error and a failure exit. -/
theorem separator_arguments_positional (st : Config) (f : String) (rest : List String) :
    parseLoop st ("--" :: f :: rest) = ParseResult.ok { st with execFile := f, execArgs := rest } ∧
    parseLoop st ["--"] = ParseResult.exitFailure "Error: Missing program argument" ∧
    parseArgs ["--", "--help", "--version"] =
      ParseResult.ok { initialConfig with execFile := "--help", execArgs := ["--version"] } :=
  ⟨rfl, rfl, rfl⟩

end netcoredbg
